import Mathlib

/-!
Verification of the microgrid two-storage environment
(General_Deep_Q_RL/environments/MG_two_storages_env.py).

The embedding is shallow: Python floats become exact rationals, the four
time series become total functions from indices to rationals (the source
never bounds-checks its numpy arrays inside act), and the mutable object
state becomes an explicit record threaded through pure functions.
Fallible calls return Option: a call that would raise in Python returns
none before any state is produced, matching the source where the raise
happens before any attribute mutation.  Division is Python-3 true
division, modeled by rational division.
-/

/-- Four parallel time series bound to an episode, mirroring the
attributes self.consumption, self.production, self.consumption_norm and
self.production_norm of the source. -/
structure Series where
  consumption : ℕ → ℚ
  production : ℕ → ℚ
  consumption_norm : ℕ → ℚ
  production_norm : ℕ → ℚ

/-- Mutable environment state: the slots of self._lastPonctualObservation
(battery level, normalized consumption and production at the cursor, the
optional distance-to-equinox slot and the two optional forecast slots),
self.counter and self.hydrogen_storage. -/
structure EnvState where
  battery_level : ℚ
  obs_cons : ℚ
  obs_prod : ℚ
  obs_equinox : ℚ
  obs_pred24 : ℚ
  obs_pred48 : ℚ
  counter : ℕ
  hydrogen_storage : ℚ
deriving DecidableEq

/-- Source constant self.battery_size = 15. * inc_sizing with inc_sizing = 1. -/
def battery_size : ℚ := 15

/-- Source constant self.battery_eta = 0.9. -/
def battery_eta : ℚ := 9 / 10

/-- Source constant self.hydrogen_max_power = 1.1 * inc_sizing. -/
def hydrogen_max_power : ℚ := 11 / 10

/-- Source constant self.hydrogen_eta = 0.65. -/
def hydrogen_eta : ℚ := 13 / 20

/-- Value of the local true_energy_avail_from_hydrogen assigned by the
three if-statements on the action in act.  The final branch is dead code:
act guards the action to 0, 1 or 2 before this value is used. -/
def eflt (a : ℤ) : ℚ :=
  if a = 0 then -(hydrogen_max_power * hydrogen_eta)
  else if a = 1 then 0
  else if a = 2 then hydrogen_max_power / hydrogen_eta
  else 0

/-- Value of the local diff_hydrogen assigned by the three if-statements
on the action in act.  The final branch is dead code under the guard. -/
def ltDiff (a : ℤ) : ℚ :=
  if a = 0 then -hydrogen_max_power
  else if a = 1 then 0
  else if a = 2 then hydrogen_max_power
  else 0

/-- Source line true_demand = consumption[counter-1] - production[counter-1],
reading the unnormalized series one index behind the cursor. -/
def trueDemandAt (ser : Series) (c : ℕ) : ℚ :=
  ser.consumption (c - 1) - ser.production (c - 1)

/-- New battery level computed by the energy-balance block of act:
drain when demand is positive and covered, floor at 0 otherwise, charge
with efficiency and a ceiling of 1 on surplus, unchanged on balance. -/
def batteryUpdate (enb lvl : ℚ) : ℚ :=
  if 0 < enb then
    if enb < lvl * battery_size then lvl - enb / battery_size
    else 0
  else if enb < 0 then
    min 1 (lvl - enb / battery_size * battery_eta)
  else lvl

/-- Loss-load penalty subtracted from the reward by the same block:
(enb - lvl * battery_size) * 2 exactly when demand is positive and not
covered by the battery, zero otherwise. -/
def penaltyTerm (enb lvl : ℚ) : ℚ :=
  if 0 < enb then
    if enb < lvl * battery_size then 0
    else (enb - lvl * battery_size) * 2
  else 0

/-- One step of the environment, the method act of the source.  The de
and p flags are self._dist_equinox and self._pred.  An action outside
0, 1, 2 leaves the locals of the source unbound and the method raises
before mutating any attribute; this is modeled by returning none.
On success the returned pair is the reward and the next state. -/
def act (ser : Series) (de p : Bool) (a : ℤ) (s : EnvState) :
    Option (ℚ × EnvState) :=
  if a = 0 ∨ a = 1 ∨ a = 2 then
    let enb := trueDemandAt ser s.counter + eflt a
    some (ltDiff a * (1 / 10) - penaltyTerm enb s.battery_level,
      { battery_level := batteryUpdate enb s.battery_level
        obs_cons := ser.consumption_norm s.counter
        obs_prod := ser.production_norm s.counter
        obs_equinox :=
          if de then |(s.counter : ℚ) / 24 - 365 / 2| / (365 / 2)
          else s.obs_equinox
        obs_pred24 :=
          if p then
            (((List.range 24).map fun i =>
              ser.production_norm (s.counter + i)).sum) / 24
          else s.obs_pred24
        obs_pred48 :=
          if p then
            (((List.range 48).map fun i =>
              ser.production_norm (s.counter + i)).sum) / 48
          else s.obs_pred48
        counter := s.counter + 1
        hydrogen_storage := s.hydrogen_storage + ltDiff a })
  else
    none

/-- Reward component of a step. -/
def stepReward (ser : Series) (de p : Bool) (a : ℤ) (s : EnvState) :
    Option ℚ :=
  (act ser de p a s).map Prod.fst

/-- State component of a step. -/
def stepState (ser : Series) (de p : Bool) (a : ℤ) (s : EnvState) :
    Option EnvState :=
  (act ser de p a s).map Prod.snd

/-- Runs a list of actions from a state, failing as soon as a step fails. -/
def runActs (ser : Series) (de p : Bool) : List ℤ → EnvState → Option EnvState
  | [], s => some s
  | a :: rest, s =>
    match act ser de p a s with
    | none => none
    | some rs => runActs ser de p rest rs.2

/-- Internal state written by reset: battery full, counter 1, hydrogen
store at 0, all observation slots of self._lastPonctualObservation other
than the battery slot set to 0. -/
def resetState : EnvState :=
  { battery_level := 1
    obs_cons := 0
    obs_prod := 0
    obs_equinox := 0
    obs_pred24 := 0
    obs_pred48 := 0
    counter := 1
    hydrogen_storage := 0 }

/-- A series that is identically zero, used to instantiate theorems. -/
def zeroSer : Series :=
  { consumption := fun _ => 0
    production := fun _ => 0
    consumption_norm := fun _ => 0
    production_norm := fun _ => 0 }

section helper_lemmas

theorem act_eq_some_of_valid (ser : Series) (de p : Bool) (a : ℤ)
    (s : EnvState) (ha : a = 0 ∨ a = 1 ∨ a = 2) :
    act ser de p a s =
      some (ltDiff a * (1 / 10) -
              penaltyTerm (trueDemandAt ser s.counter + eflt a) s.battery_level,
        { battery_level :=
            batteryUpdate (trueDemandAt ser s.counter + eflt a) s.battery_level
          obs_cons := ser.consumption_norm s.counter
          obs_prod := ser.production_norm s.counter
          obs_equinox :=
            if de then |(s.counter : ℚ) / 24 - 365 / 2| / (365 / 2)
            else s.obs_equinox
          obs_pred24 :=
            if p then
              (((List.range 24).map fun i =>
                ser.production_norm (s.counter + i)).sum) / 24
            else s.obs_pred24
          obs_pred48 :=
            if p then
              (((List.range 48).map fun i =>
                ser.production_norm (s.counter + i)).sum) / 48
            else s.obs_pred48
          counter := s.counter + 1
          hydrogen_storage := s.hydrogen_storage + ltDiff a }) := by
  unfold act
  exact if_pos ha

theorem penaltyTerm_eq_max (enb lvl : ℚ) (h0 : 0 ≤ lvl) :
    penaltyTerm enb lvl = 2 * max 0 (enb - lvl * battery_size) := by
  have hsize : (0 : ℚ) ≤ lvl * battery_size := by
    have : (0 : ℚ) ≤ battery_size := by norm_num [battery_size]
    exact mul_nonneg h0 this
  unfold penaltyTerm
  split_ifs with h1 h2
  · rw [max_eq_left (by linarith)]
    ring
  · rw [max_eq_right (by linarith)]
    ring
  · rw [max_eq_left (by linarith)]
    ring

theorem batteryUpdate_mem_unit (enb lvl : ℚ) (h0 : 0 ≤ lvl) (h1 : lvl ≤ 1) :
    0 ≤ batteryUpdate enb lvl ∧ batteryUpdate enb lvl ≤ 1 := by
  have hb : (0 : ℚ) < battery_size := by norm_num [battery_size]
  unfold batteryUpdate
  split_ifs with hpos hcov hneg
  · constructor
    · have hdiv : enb / battery_size < lvl := (div_lt_iff₀ hb).mpr hcov
      linarith
    · have hdiv : 0 < enb / battery_size := div_pos hpos hb
      linarith
  · exact ⟨le_refl 0, by norm_num⟩
  · constructor
    · have hdivneg : enb / battery_size < 0 := div_neg_of_neg_of_pos hneg hb
      have heta : (0 : ℚ) < battery_eta := by norm_num [battery_eta]
      have : enb / battery_size * battery_eta < 0 :=
        mul_neg_of_neg_of_pos hdivneg heta
      exact le_min (by norm_num) (by linarith)
    · exact min_le_left 1 _
  · exact ⟨h0, h1⟩

end helper_lemmas

section step_projections

theorem act_valid_of_some (ser : Series) (de p : Bool) (a : ℤ)
    (s : EnvState) (rs : ℚ × EnvState) (h : act ser de p a s = some rs) :
    a = 0 ∨ a = 1 ∨ a = 2 := by
  by_contra hna
  rw [act, if_neg hna] at h
  exact Option.noConfusion h

theorem act_some_battery (ser : Series) (de p : Bool) (a : ℤ)
    (s : EnvState) (rs : ℚ × EnvState) (h : act ser de p a s = some rs) :
    rs.2.battery_level =
      batteryUpdate (trueDemandAt ser s.counter + eflt a) s.battery_level := by
  have ha := act_valid_of_some ser de p a s rs h
  rw [act_eq_some_of_valid ser de p a s ha] at h
  injection h with h
  subst h
  rfl

theorem act_some_hydrogen (ser : Series) (de p : Bool) (a : ℤ)
    (s : EnvState) (rs : ℚ × EnvState) (h : act ser de p a s = some rs) :
    rs.2.hydrogen_storage = s.hydrogen_storage + ltDiff a := by
  have ha := act_valid_of_some ser de p a s rs h
  rw [act_eq_some_of_valid ser de p a s ha] at h
  injection h with h
  subst h
  rfl

end step_projections

/-- C1: for every valid action, act derives the hydrogen contribution
and accumulator increment of the action (discharge, hold, charge give
contribution -1.1*0.65, 0, 1.1/0.65 and increment -1.1, 0, 1.1), adds
the increment to the hydrogen store, and returns the tariff reward
ltDiff a * 0.1 minus twice the positive part of the demand left
uncovered by the battery; in particular a discharge step whose net need
is covered by the battery returns exactly -0.11. -/
theorem c1_step_reward_and_accumulator (ser : Series) (de p : Bool)
    (s : EnvState) (h0 : 0 ≤ s.battery_level) (a : ℤ)
    (ha : a = 0 ∨ a = 1 ∨ a = 2) :
    stepReward ser de p a s =
      some (ltDiff a * (1 / 10) -
        2 * max 0 (trueDemandAt ser s.counter + eflt a -
          s.battery_level * battery_size)) ∧
    (stepState ser de p a s).map EnvState.hydrogen_storage =
      some (s.hydrogen_storage + ltDiff a) ∧
    eflt 0 = -(143 / 200) ∧ ltDiff 0 = -(11 / 10) ∧
    eflt 1 = 0 ∧ ltDiff 1 = 0 ∧
    eflt 2 = 22 / 13 ∧ ltDiff 2 = 11 / 10 ∧
    (trueDemandAt ser s.counter + eflt 0 ≤ s.battery_level * battery_size →
      stepReward ser de p 0 s = some (-(11 / 100))) := by
  have hmax := penaltyTerm_eq_max (trueDemandAt ser s.counter + eflt a)
    s.battery_level h0
  refine ⟨?_, ?_, ?_, ?_, ?_, ?_, ?_, ?_, ?_⟩
  · simp only [stepReward, act_eq_some_of_valid ser de p a s ha]
    rw [hmax]
    rfl
  · simp only [stepState, act_eq_some_of_valid ser de p a s ha]
    rfl
  · norm_num [eflt, hydrogen_max_power, hydrogen_eta]
  · norm_num [ltDiff, hydrogen_max_power]
  · norm_num [eflt]
  · norm_num [ltDiff]
  · norm_num [eflt, hydrogen_max_power, hydrogen_eta]
  · norm_num [ltDiff, hydrogen_max_power]
  · intro hle
    have hmax0 := penaltyTerm_eq_max (trueDemandAt ser s.counter + eflt 0)
      s.battery_level h0
    simp only [stepReward, act_eq_some_of_valid ser de p 0 s (Or.inl rfl),
      Option.map]
    rw [hmax0, max_eq_left (by linarith :
      trueDemandAt ser s.counter + eflt 0 - s.battery_level * battery_size ≤ 0)]
    norm_num [ltDiff, hydrogen_max_power]

/-- Witness for C1 at the zero series, the reset state and action 0. -/
theorem c1_step_reward_witness :
    stepReward zeroSer false false 0 resetState =
      some (ltDiff 0 * (1 / 10) -
        2 * max 0 (trueDemandAt zeroSer resetState.counter + eflt 0 -
          resetState.battery_level * battery_size)) ∧
    (stepState zeroSer false false 0 resetState).map EnvState.hydrogen_storage =
      some (resetState.hydrogen_storage + ltDiff 0) ∧
    eflt 0 = -(143 / 200) ∧ ltDiff 0 = -(11 / 10) ∧
    eflt 1 = 0 ∧ ltDiff 1 = 0 ∧
    eflt 2 = 22 / 13 ∧ ltDiff 2 = 11 / 10 ∧
    (trueDemandAt zeroSer resetState.counter + eflt 0 ≤
        resetState.battery_level * battery_size →
      stepReward zeroSer false false 0 resetState = some (-(11 / 100))) :=
  c1_step_reward_and_accumulator zeroSer false false resetState
    (by norm_num [resetState]) 0 (Or.inl rfl)

section battery_invariant

theorem runActs_battery_mem_unit (ser : Series) (de p : Bool)
    (acts : List ℤ) :
    ∀ (s s' : EnvState), 0 ≤ s.battery_level → s.battery_level ≤ 1 →
      runActs ser de p acts s = some s' →
      0 ≤ s'.battery_level ∧ s'.battery_level ≤ 1 := by
  induction acts with
  | nil =>
    intro s s' h0 h1 h
    simp only [runActs] at h
    injection h with h
    subst h
    exact ⟨h0, h1⟩
  | cons a rest ih =>
    intro s s' h0 h1 h
    simp only [runActs] at h
    cases hact : act ser de p a s with
    | none => rw [hact] at h; exact Option.noConfusion h
    | some rs =>
      rw [hact] at h
      have hbat := act_some_battery ser de p a s rs hact
      have hmem := batteryUpdate_mem_unit
        (trueDemandAt ser s.counter + eflt a) s.battery_level h0 h1
      rw [← hbat] at hmem
      exact ih rs.2 s' hmem.1 hmem.2 h

end battery_invariant

/-- C2: starting from the state written by reset, every sequence of
successful steps keeps the battery level between 0 and 1. -/
theorem c2_battery_level_in_unit_interval (ser : Series) (de p : Bool)
    (acts : List ℤ) (s' : EnvState)
    (h : runActs ser de p acts resetState = some s') :
    0 ≤ s'.battery_level ∧ s'.battery_level ≤ 1 :=
  runActs_battery_mem_unit ser de p acts resetState s'
    (by norm_num [resetState]) (by norm_num [resetState]) h

/-- State reached from resetState by one charge action on the zero series. -/
def stateAfterCharge : EnvState :=
  { battery_level := 173 / 195
    obs_cons := 0
    obs_prod := 0
    obs_equinox := 0
    obs_pred24 := 0
    obs_pred48 := 0
    counter := 2
    hydrogen_storage := 11 / 10 }

/-- Witness for C2 after one charge action on the zero series. -/
theorem c2_battery_level_witness :
    0 ≤ stateAfterCharge.battery_level ∧ stateAfterCharge.battery_level ≤ 1 :=
  c2_battery_level_in_unit_interval zeroSer false false [2] stateAfterCharge
    (by
      have h2 := act_eq_some_of_valid zeroSer false false 2 resetState
        (by norm_num)
      simp only [runActs, h2]
      norm_num [batteryUpdate, trueDemandAt, eflt, ltDiff, zeroSer, resetState,
        stateAfterCharge, battery_size, battery_eta, hydrogen_max_power,
        hydrogen_eta, EnvState.mk.injEq])

/-- State reached from resetState by one discharge action on the zero
series: the surplus recharges the already-full battery, the hydrogen
store drops to -1.1. -/
def stateAfterDischarge : EnvState :=
  { battery_level := 1
    obs_cons := 0
    obs_prod := 0
    obs_equinox := 0
    obs_pred24 := 0
    obs_pred48 := 0
    counter := 2
    hydrogen_storage := -(11 / 10) }

/-- C3 counterexample: a single discharge step from reset is a reachable
state whose long-term store level is -1.1, strictly below 0. -/
theorem c3_long_term_level_negative :
    runActs zeroSer false false [0] resetState = some stateAfterDischarge ∧
    stateAfterDischarge.hydrogen_storage < 0 := by
  constructor
  · have h0 := act_eq_some_of_valid zeroSer false false 0 resetState
      (by norm_num)
    simp only [runActs, h0]
    norm_num [batteryUpdate, trueDemandAt, eflt, ltDiff, zeroSer, resetState,
      stateAfterDischarge, battery_size, battery_eta, hydrogen_max_power,
      hydrogen_eta, EnvState.mk.injEq, min_def]
  · norm_num [stateAfterDischarge]

/-- Per-step contribution of an action to the hydrogen accumulator,
in units of hydrogen_max_power. -/
def chargeSign (a : ℤ) : ℚ :=
  if a = 2 then 1 else if a = 0 then -1 else 0

/-- Net number of charge steps minus discharge steps of an action list,
as a rational. -/
def chargeBalance : List ℤ → ℚ
  | [] => 0
  | a :: rest => chargeSign a + chargeBalance rest

theorem ltDiff_eq_mul_chargeSign (a : ℤ) (ha : a = 0 ∨ a = 1 ∨ a = 2) :
    ltDiff a = hydrogen_max_power * chargeSign a := by
  rcases ha with rfl | rfl | rfl <;>
    norm_num [ltDiff, chargeSign, hydrogen_max_power]

theorem runActs_hydrogen (ser : Series) (de p : Bool) (acts : List ℤ) :
    ∀ (s s' : EnvState), runActs ser de p acts s = some s' →
      s'.hydrogen_storage =
        s.hydrogen_storage + hydrogen_max_power * chargeBalance acts := by
  induction acts with
  | nil =>
    intro s s' h
    simp only [runActs] at h
    injection h with h
    subst h
    simp [chargeBalance]
  | cons a rest ih =>
    intro s s' h
    simp only [runActs] at h
    cases hact : act ser de p a s with
    | none => rw [hact] at h; exact Option.noConfusion h
    | some rs =>
      rw [hact] at h
      have hhyd := act_some_hydrogen ser de p a s rs hact
      have hsign := ltDiff_eq_mul_chargeSign a
        (act_valid_of_some ser de p a s rs hact)
      have htail := ih rs.2 s' h
      rw [htail, hhyd, hsign, chargeBalance]
      ring

/-- C3 amended: the long-term store level is not bounded below by 0; at
every reachable state it equals hydrogen_max_power times the number of
charge steps minus the number of discharge steps taken so far, which is
negative as soon as discharges outnumber charges. -/
theorem c3_long_term_level_balance (ser : Series) (de p : Bool)
    (acts : List ℤ) (s' : EnvState)
    (h : runActs ser de p acts resetState = some s') :
    s'.hydrogen_storage = hydrogen_max_power * chargeBalance acts := by
  have hx := runActs_hydrogen ser de p acts resetState s' h
  rw [hx]
  norm_num [resetState]

/-- Witness for the amended C3 after one discharge action. -/
theorem c3_long_term_level_balance_witness :
    stateAfterDischarge.hydrogen_storage =
      hydrogen_max_power * chargeBalance [0] :=
  c3_long_term_level_balance zeroSer false false [0] stateAfterDischarge
    (by
      have h0 := act_eq_some_of_valid zeroSer false false 0 resetState
        (by norm_num)
      simp only [runActs, h0]
      norm_num [batteryUpdate, trueDemandAt, eflt, ltDiff, zeroSer, resetState,
        stateAfterDischarge, battery_size, battery_eta, hydrogen_max_power,
        hydrogen_eta, EnvState.mk.injEq, min_def])

/-- C4: when the net need is positive and the battery holds at least
that much energy, the step drains the battery by netNeed divided by the
capacity, charges no loss-load penalty (the reward is exactly the
long-term tariff term), and at exact equality the battery ends at 0. -/
theorem c4_drain_without_penalty (ser : Series) (de p : Bool)
    (s : EnvState) (a : ℤ) (ha : a = 0 ∨ a = 1 ∨ a = 2)
    (hpos : 0 < trueDemandAt ser s.counter + eflt a)
    (hle : trueDemandAt ser s.counter + eflt a ≤ s.battery_level * battery_size) :
    stepReward ser de p a s = some (ltDiff a * (1 / 10)) ∧
    (stepState ser de p a s).map EnvState.battery_level =
      some (s.battery_level -
        (trueDemandAt ser s.counter + eflt a) / battery_size) ∧
    (trueDemandAt ser s.counter + eflt a = s.battery_level * battery_size →
      (stepState ser de p a s).map EnvState.battery_level = some 0) := by
  have hb : (0 : ℚ) < battery_size := by norm_num [battery_size]
  refine ⟨?_, ?_, ?_⟩
  · simp only [stepReward, act_eq_some_of_valid ser de p a s ha, Option.map]
    rcases lt_or_eq_of_le hle with hlt | heq
    · rw [penaltyTerm, if_pos hpos, if_pos hlt]
      ring_nf
    · rw [penaltyTerm, if_pos hpos, if_neg (by rw [heq]; exact lt_irrefl _)]
      rw [heq]
      ring_nf
  · simp only [stepState, act_eq_some_of_valid ser de p a s ha, Option.map]
    rcases lt_or_eq_of_le hle with hlt | heq
    · rw [batteryUpdate, if_pos hpos, if_pos hlt]
    · rw [batteryUpdate, if_pos hpos, if_neg (by rw [heq]; exact lt_irrefl _)]
      rw [heq, mul_div_assoc, div_self (ne_of_gt hb), mul_one, sub_self]
  · intro heq
    simp only [stepState, act_eq_some_of_valid ser de p a s ha, Option.map]
    rw [batteryUpdate, if_pos hpos, if_neg (by rw [heq]; exact lt_irrefl _)]

/-- Witness for C4 at the zero series, the reset state and a charge
action, whose net need 22/13 is positive and covered by the full battery. -/
theorem c4_drain_without_penalty_witness :
    stepReward zeroSer false false 2 resetState =
      some (ltDiff 2 * (1 / 10)) ∧
    (stepState zeroSer false false 2 resetState).map EnvState.battery_level =
      some (resetState.battery_level -
        (trueDemandAt zeroSer resetState.counter + eflt 2) / battery_size) ∧
    (trueDemandAt zeroSer resetState.counter + eflt 2 =
        resetState.battery_level * battery_size →
      (stepState zeroSer false false 2 resetState).map EnvState.battery_level =
        some 0) :=
  c4_drain_without_penalty zeroSer false false resetState 2 (by norm_num)
    (by norm_num [trueDemandAt, eflt, zeroSer, resetState, hydrogen_max_power,
      hydrogen_eta])
    (by norm_num [trueDemandAt, eflt, zeroSer, resetState, hydrogen_max_power,
      hydrogen_eta, battery_size])

/-- C6: an action outside 0, 1, 2 makes act fail before producing any
reward or successor state: in the source the three if-statements leave
the step locals unbound and the method raises before any attribute of
the environment is written, so the battery level, the hydrogen store and
the counter keep their previous values. -/
theorem c6_invalid_action_rejected (ser : Series) (de p : Bool)
    (s : EnvState) (a : ℤ) (ha : ¬(a = 0 ∨ a = 1 ∨ a = 2)) :
    act ser de p a s = none ∧ runActs ser de p [a] s = none := by
  have hnone : act ser de p a s = none := by
    rw [act, if_neg ha]
  exact ⟨hnone, by simp only [runActs, hnone]⟩

/-- Witness for C6 at action 5. -/
theorem c6_invalid_action_witness :
    act zeroSer false false 5 resetState = none ∧
    runActs zeroSer false false [5] resetState = none :=
  c6_invalid_action_rejected zeroSer false false resetState 5 (by norm_num)

/-- The three splits of the data provider: training, validation and
test series, as bound by reset through the mode dispatch. -/
structure DataSets where
  train : Series
  valid : Series
  test : Series

/-- A Python value usable as the mode argument of reset.  The source
compares the mode with the integers -1 and 0 using Python equality,
under which False equals 0 and True equals 1. -/
inductive PyMode where
  | int : ℤ → PyMode
  | bool : Bool → PyMode

/-- Numeric value of a mode under Python equality with an integer. -/
def PyMode.toInt : PyMode → ℤ
  | .int n => n
  | .bool b => if b then 1 else 0

/-- Mode dispatch of reset: modes equal to -1 bind the training series,
modes equal to 0 bind the validation series, and the final else branch
binds the test series to everything else. -/
def selectSeries (d : DataSets) (m : PyMode) : Series :=
  if m.toInt = -1 then d.train
  else if m.toInt = 0 then d.valid
  else d.test

/-- Observation record returned by reset: the battery slot, a 12 by 2
history block of consumption and production pairs, and the optional
distance-to-equinox and forecast slots present only in the layouts that
carry them. -/
structure ResetObs where
  level : ℚ
  hist : List (ℚ × ℚ)
  equinox : Option ℚ
  preds : Option (ℚ × ℚ)
deriving DecidableEq

/-- Observation literally returned by reset: every branch returns a
record whose numeric entries are all 0, with the equinox and forecast
slots present only when the corresponding flag combination carries them. -/
def resetObs (de p : Bool) : ResetObs :=
  if de && p then
    { level := 0, hist := List.replicate 12 (0, 0)
      equinox := some 0, preds := some (0, 0) }
  else if de && !p then
    { level := 0, hist := List.replicate 12 (0, 0)
      equinox := some 0, preds := none }
  else
    { level := 0, hist := List.replicate 12 (0, 0)
      equinox := none, preds := none }

/-- The method reset of the source: writes resetState into the internal
attributes, binds the series selected by the mode, and returns the
all-zero observation record. -/
def reset (d : DataSets) (de p : Bool) (m : PyMode) :
    ResetObs × Series × EnvState :=
  (resetObs de p, selectSeries d m, resetState)

/-- C5: for every mode and flag combination, reset writes battery level
1, hydrogen store 0 and counter 1 into the internal state, while the
observation record it returns is entirely zero, its battery slot
included, so the returned record disagrees with the internal battery
level. -/
theorem c5_reset_state_and_observation (d : DataSets) (de p : Bool)
    (m : PyMode) :
    (reset d de p m).2.2.battery_level = 1 ∧
    (reset d de p m).2.2.hydrogen_storage = 0 ∧
    (reset d de p m).2.2.counter = 1 ∧
    (reset d de p m).1.level = 0 ∧
    (reset d de p m).1.hist = List.replicate 12 (0, 0) ∧
    ((reset d de p m).1.equinox = none ∨ (reset d de p m).1.equinox = some 0) ∧
    ((reset d de p m).1.preds = none ∨ (reset d de p m).1.preds = some (0, 0)) ∧
    (reset d de p m).1.level ≠ (reset d de p m).2.2.battery_level := by
  cases de <;> cases p <;>
    simp [reset, resetObs, resetState]

/-- Shape descriptors assigned to self._inputDimensions by the flag
branches of the constructor.  The pair of flags (off, on) reaches no
branch: no assignment happens and the result is none. -/
def inputDims (de p : Bool) : Option (List (List ℕ)) :=
  if de && p then some [[1], [12, 2], [1], [1, 2]]
  else if de && !p then some [[1], [12, 2], [1]]
  else if !de && !p then some [[1], [12, 2]]
  else none

/-- Constructor outcome for a flag combination.  The source constructor
raises no error on any combination: it runs the if-elif chain, which
either assigns the layout or silently assigns nothing, and then carries
on, so the result is always ok. -/
def initEnv (de p : Bool) : Except Unit (Option (List (List ℕ))) :=
  Except.ok (inputDims de p)

/-- C7 counterexample: requesting the unsupported pair (seasonal off,
forecast on) does not fail construction; the constructor returns
normally with no layout assigned. -/
theorem c7_construction_does_not_fail :
    initEnv false true = Except.ok none ∧
    initEnv false true ≠ Except.error () := by
  constructor
  · rfl
  · intro h
    rw [show initEnv false true = Except.ok none from rfl] at h
    exact Except.noConfusion h

/-- C7 amended: construction never fails for any flag combination; the
three supported combinations assign the documented inputDimensions
layouts, and the unsupported pair (seasonal off, forecast on) silently
leaves the layout unassigned instead of raising. -/
theorem c7_layouts :
    (∀ de p : Bool, initEnv de p = Except.ok (inputDims de p)) ∧
    initEnv true true = Except.ok (some [[1], [12, 2], [1], [1, 2]]) ∧
    initEnv true false = Except.ok (some [[1], [12, 2], [1]]) ∧
    initEnv false false = Except.ok (some [[1], [12, 2]]) ∧
    initEnv false true = Except.ok none := by
  refine ⟨fun de p => rfl, rfl, rfl, rfl, rfl⟩

/-- A constant series with value 1 in every slot. -/
def serOne : Series :=
  { consumption := fun _ => 1
    production := fun _ => 1
    consumption_norm := fun _ => 1
    production_norm := fun _ => 1 }

/-- A constant series with value 2 in every slot. -/
def serTwo : Series :=
  { consumption := fun _ => 2
    production := fun _ => 2
    consumption_norm := fun _ => 2
    production_norm := fun _ => 2 }

/-- A constant series with value 3 in every slot. -/
def serThree : Series :=
  { consumption := fun _ => 3
    production := fun _ => 3
    consumption_norm := fun _ => 3
    production_norm := fun _ => 3 }

/-- Distinguishable data sets used to exhibit the mode dispatch. -/
def exData : DataSets :=
  { train := serOne, valid := serTwo, test := serThree }

/-- C10 counterexample: the mode False does not bind the test series;
it equals 0 under Python equality and binds the validation series. -/
theorem c10_false_mode_counterexample :
    selectSeries exData (PyMode.bool false) = exData.valid ∧
    selectSeries exData (PyMode.bool false) ≠ exData.test := by
  constructor
  · rfl
  · intro h
    have h2 := congrArg (fun t => t.consumption 0) h
    simp only [selectSeries, exData, serTwo, serThree, PyMode.toInt] at h2
    norm_num at h2

/-- C10 amended: reset never rejects a mode; a mode equal to -1 under
Python equality binds the training series, a mode equal to 0 binds the
validation series (so False binds validation, not test), and every
other integer and True bind the test series. -/
theorem c10_mode_dispatch (d : DataSets) :
    selectSeries d (PyMode.int (-1)) = d.train ∧
    selectSeries d (PyMode.int 0) = d.valid ∧
    selectSeries d (PyMode.bool false) = d.valid ∧
    selectSeries d (PyMode.bool true) = d.test ∧
    (∀ n : ℤ, n ≠ -1 → n ≠ 0 → selectSeries d (PyMode.int n) = d.test) := by
  refine ⟨rfl, rfl, rfl, rfl, fun n h1 h0 => ?_⟩
  rw [selectSeries, PyMode.toInt, if_neg h1, if_neg h0]

/-- Witness for the amended C10 at mode 7. -/
theorem c10_mode_dispatch_witness :
    selectSeries exData (PyMode.int 7) = exData.test :=
  (c10_mode_dispatch exData).2.2.2.2 7 (by norm_num) (by norm_num)

/-- C8: a step entered with cursor c computes its true demand from the
unnormalized series at index c-1 (the trueDemandAt reading), assembles
the observation from the normalized series at index c (consumption and
production slots, the seasonal slot as distance to equinox of c over 24
when enabled, and the 24-hour and 48-hour means of normalized production
starting at c when enabled), and only then advances the cursor to c+1. -/
theorem c8_observation_assembly (ser : Series) (de p : Bool)
    (s : EnvState) (a : ℤ) (ha : a = 0 ∨ a = 1 ∨ a = 2) :
    (stepState ser de p a s).map EnvState.obs_cons =
      some (ser.consumption_norm s.counter) ∧
    (stepState ser de p a s).map EnvState.obs_prod =
      some (ser.production_norm s.counter) ∧
    (de = true →
      (stepState ser de p a s).map EnvState.obs_equinox =
        some (|(s.counter : ℚ) / 24 - 365 / 2| / (365 / 2))) ∧
    (p = true →
      (stepState ser de p a s).map EnvState.obs_pred24 =
        some ((((List.range 24).map fun i =>
          ser.production_norm (s.counter + i)).sum) / 24) ∧
      (stepState ser de p a s).map EnvState.obs_pred48 =
        some ((((List.range 48).map fun i =>
          ser.production_norm (s.counter + i)).sum) / 48)) ∧
    (stepState ser de p a s).map EnvState.counter = some (s.counter + 1) ∧
    (stepState ser de p a s).map EnvState.battery_level =
      some (batteryUpdate (trueDemandAt ser s.counter + eflt a)
        s.battery_level) ∧
    stepReward ser de p a s =
      some (ltDiff a * (1 / 10) -
        penaltyTerm (trueDemandAt ser s.counter + eflt a) s.battery_level) := by
  have hact := act_eq_some_of_valid ser de p a s ha
  refine ⟨?_, ?_, ?_, ?_, ?_, ?_, ?_⟩
  · simp only [stepState, hact, Option.map]
  · simp only [stepState, hact, Option.map]
  · intro hde
    subst hde
    simp only [stepState, hact, Option.map, if_pos]
  · intro hp
    subst hp
    constructor <;> simp only [stepState, hact, Option.map, if_pos]
  · simp only [stepState, hact, Option.map]
  · simp only [stepState, hact, Option.map]
  · simp only [stepReward, hact, Option.map]

/-- Witness for C8 with both flags on, action 1 and the constant series. -/
theorem c8_observation_assembly_witness :
    (stepState serOne true true 1 resetState).map EnvState.obs_cons =
      some (serOne.consumption_norm resetState.counter) ∧
    (stepState serOne true true 1 resetState).map EnvState.obs_prod =
      some (serOne.production_norm resetState.counter) ∧
    (true = true →
      (stepState serOne true true 1 resetState).map EnvState.obs_equinox =
        some (|(resetState.counter : ℚ) / 24 - 365 / 2| / (365 / 2))) ∧
    (true = true →
      (stepState serOne true true 1 resetState).map EnvState.obs_pred24 =
        some ((((List.range 24).map fun i =>
          serOne.production_norm (resetState.counter + i)).sum) / 24) ∧
      (stepState serOne true true 1 resetState).map EnvState.obs_pred48 =
        some ((((List.range 48).map fun i =>
          serOne.production_norm (resetState.counter + i)).sum) / 48)) ∧
    (stepState serOne true true 1 resetState).map EnvState.counter =
      some (resetState.counter + 1) ∧
    (stepState serOne true true 1 resetState).map EnvState.battery_level =
      some (batteryUpdate
        (trueDemandAt serOne resetState.counter + eflt 1)
        resetState.battery_level) ∧
    stepReward serOne true true 1 resetState =
      some (ltDiff 1 * (1 / 10) -
        penaltyTerm (trueDemandAt serOne resetState.counter + eflt 1)
          resetState.battery_level) :=
  c8_observation_assembly serOne true true resetState 1 (Or.inr (Or.inl rfl))

/-- Observation record of the running configuration as Python holds it:
a two-slot list whose first slot is the battery level and whose second
slot is a reference (a heap address) to the inner two-element list of
normalized consumption and production. -/
structure ObsRec where
  level : ℚ
  inner : ℕ

/-- Heap of inner lists with a bump allocator: addresses below next are
allocated. -/
structure ObsHeap where
  cells : ℕ → ℚ × ℚ
  next : ℕ

/-- Value denoted by an observation record: its level slot paired with
the contents of the inner list it references. -/
def obsValue (h : ObsHeap) (o : ObsRec) : ℚ × (ℚ × ℚ) :=
  (o.level, h.cells o.inner)

/-- copy.deepcopy of the observation record: allocates a fresh inner
list holding the same contents and returns a record referencing the
fresh copy, leaving the original untouched. -/
def deepcopyObs (h : ObsHeap) (o : ObsRec) : ObsHeap × ObsRec :=
  ({ cells := fun n => if n = h.next then h.cells o.inner else h.cells n
     next := h.next + 1 },
   { level := o.level, inner := h.next })

/-- The method observe of the source: returns
copy.deepcopy(self._lastPonctualObservation). -/
def observe (h : ObsHeap) (env : ObsRec) : ObsHeap × ObsRec :=
  deepcopyObs h env

/-- In-place mutation of an inner list through a reference, as a caller
of observe could attempt on the returned record. -/
def writeInner (h : ObsHeap) (addr : ℕ) (v : ℚ × ℚ) : ObsHeap :=
  { cells := fun n => if n = addr then v else h.cells n
    next := h.next }

/-- C9: observe returns the current observation by value, two
consecutive calls to observe with no step in between return equal
values, and writing through the returned reference does not change the
value of the observation held by the environment. -/
theorem c9_observe_copy_semantics (h : ObsHeap) (env : ObsRec)
    (hwf : env.inner < h.next) :
    obsValue (observe h env).1 (observe h env).2 = obsValue h env ∧
    obsValue (observe (observe h env).1 env).1
        (observe (observe h env).1 env).2 =
      obsValue (observe h env).1 (observe h env).2 ∧
    ∀ v : ℚ × ℚ,
      obsValue (writeInner (observe h env).1 (observe h env).2.inner v) env =
        obsValue h env := by
  have hne : env.inner ≠ h.next := Nat.ne_of_lt hwf
  have hne1 : env.inner ≠ h.next + 1 := by omega
  refine ⟨?_, ?_, fun v => ?_⟩
  · simp [observe, deepcopyObs, obsValue]
  · simp [observe, deepcopyObs, obsValue, hne, hne1]
  · simp [observe, deepcopyObs, obsValue, writeInner, hne]

/-- Concrete heap with a single allocated inner cell holding (5, 7). -/
def exHeap : ObsHeap :=
  { cells := fun _ => (5, 7), next := 1 }

/-- Environment observation record referencing cell 0 of exHeap. -/
def exObs : ObsRec :=
  { level := 1, inner := 0 }

/-- Witness for C9 on the concrete one-cell heap, with the write
instantiated at the pair (4, 9). -/
theorem c9_observe_copy_witness :
    obsValue (observe exHeap exObs).1 (observe exHeap exObs).2 =
      obsValue exHeap exObs ∧
    obsValue (observe (observe exHeap exObs).1 exObs).1
        (observe (observe exHeap exObs).1 exObs).2 =
      obsValue (observe exHeap exObs).1 (observe exHeap exObs).2 ∧
    obsValue (writeInner (observe exHeap exObs).1
        (observe exHeap exObs).2.inner (4, 9)) exObs =
      obsValue exHeap exObs := by
  obtain ⟨h1, h2, h3⟩ := c9_observe_copy_semantics exHeap exObs
    (by norm_num [exHeap, exObs])
  exact ⟨h1, h2, h3 (4, 9)⟩
